import Mathlib

/-!
Verification of the on-demand report generation pipeline of the
`app-life-sync-api` backend: the OpenRouter LLM client (error
classification, retry with backoff, input sanitization), the circuit
breaker, the week-boundary computation and the report orchestrator
(`ReportsService.generateReport`).

Strings from the TypeScript source are embedded as `List Char`; instants
(JavaScript `Date` values) as `Int` seconds since the Unix epoch; UUIDs
as `Nat`.  The server process is assumed to run with its system timezone
set to UTC (the standard deployment for this backend), which fixes the
semantics of `toISOString`/`setHours` used by the week computation.
-/

namespace LifeSync

deriving instance DecidableEq for Except

/-! OpenRouter error taxonomy (src `errors.ts`).

One constructor per error class thrown by the service.  `generic msg`
stands for a plain `Error` carrying a message that was never mapped to a
specific class. -/

inductive ORError where
  | apiKeyInvalid
  | rateLimit
  | quotaExceeded
  | modelNotFound
  | serviceUnavailable
  | apiTimeout (timeoutMs : Nat)
  | validationFailed
  | generic (msg : List Char)
  deriving DecidableEq, Repr

/-! Error classification (src `openrouter.service.ts`, `handleRequestError`).

The source lowercases the caught error's message and tests substring
containment in order: `'401'`, `'429'`, `'402'`, `'404'`, `'5'`,
`'timeout'`; the first hit is thrown as the mapped error class.  If no
substring matches, `handleRequestError` returns without throwing and the
original error is rethrown by `makeRequest`'s catch block. -/

/-- Embeds `message.includes(needle)`: is `needle` a contiguous substring? -/
def includesSub (hay needle : List Char) : Bool :=
  hay.tails.any (fun t => needle.isPrefixOf t)

def classifyMessage (timeoutMs : Nat) (msg : List Char) : Option ORError :=
  let m := msg.map Char.toLower
  if includesSub m (String.toList "401") then some .apiKeyInvalid
  else if includesSub m (String.toList "429") then some .rateLimit
  else if includesSub m (String.toList "402") then some .quotaExceeded
  else if includesSub m (String.toList "404") then some .modelNotFound
  else if includesSub m (String.toList "5") then some .serviceUnavailable
  else if includesSub m (String.toList "timeout") then some (.apiTimeout timeoutMs)
  else none

/-- Retry verdict, `shouldRetry` from the source: only rate-limit, service-unavailable
and timeout errors are retried; everything else (validation, auth, and
any unmapped error) is not. -/
def shouldRetry : ORError → Bool
  | .rateLimit => true
  | .serviceUnavailable => true
  | .apiTimeout _ => true
  | _ => false

/-! One transport attempt (src `makeRequest`).

A single attempt either succeeds, gets a non-2xx HTTP response (the
source throws `Error("HTTP ${status}: ${statusText}")`), loses the race
against the timeout promise (`Error("Timeout after ${timeout}ms")`), or
the fetch itself rejects with some other message. -/

inductive Attempt (α : Type) where
  | success (v : α)
  | httpFailure (status : Nat) (statusText : List Char)
  | timedOut
  | transportFailure (msg : List Char)

/-- The message of the `Error` thrown inside `makeRequest` for a non-2xx
response: `HTTP ${status}: ${statusText}`. -/
def httpErrorMessage (status : Nat) (statusText : List Char) : List Char :=
  String.toList "HTTP " ++ Nat.toDigits 10 status ++ String.toList ": " ++ statusText

/-- The message of the timeout rejection: `Timeout after ${timeout}ms`. -/
def timeoutMessage (timeoutMs : Nat) : List Char :=
  String.toList "Timeout after " ++ Nat.toDigits 10 timeoutMs ++ String.toList "ms"

/-- The error `makeRequest` surfaces for a failed attempt: the mapped
class when `handleRequestError` matched a substring, otherwise the
original error is rethrown unchanged. -/
def surfacedError (timeoutMs : Nat) (msg : List Char) : ORError :=
  (classifyMessage timeoutMs msg).getD (.generic msg)

/-- Embeds `makeRequest` on one attempt outcome. -/
def makeRequest (timeoutMs : Nat) : Attempt α → Except ORError α
  | .success v => .ok v
  | .httpFailure s txt => .error (surfacedError timeoutMs (httpErrorMessage s txt))
  | .timedOut => .error (surfacedError timeoutMs (timeoutMessage timeoutMs))
  | .transportFailure m => .error (surfacedError timeoutMs m)

/-! Retry with exponential backoff (src `makeRequestWithRetry`, `calculateBackoff`). -/

structure RetryConfig where
  timeoutMs : Nat := 30000
  maxRetries : Nat := 3
  retryDelayMs : Nat := 1000
  deriving Repr

/-- Backoff, source `calculateBackoff`: `min(retryDelayMs * 2^retryCount + jitter, 32000)`
where `jitter` is drawn uniformly from `[0, 1000)`. -/
def calculateBackoff (cfg : RetryConfig) (jitter : Nat) (retryCount : Nat) : Nat :=
  min (cfg.retryDelayMs * 2 ^ retryCount + jitter) 32000

/-- Observable outcome of a `makeRequestWithRetry` run: the final result,
how many attempts were made, and the sequence of sleeps taken. -/
structure RetryRun (α : Type) where
  result : Except ORError α
  attempts : Nat
  sleeps : List Nat
  deriving DecidableEq, Repr

/-- Embeds `makeRequestWithRetry`: attempt, and on a retryable error with
retries remaining sleep `calculateBackoff retryCount` and recurse with
`retryCount + 1`.  `transport n` is the outcome of the attempt made with
retry counter `n`; `jitter n` the random jitter drawn before sleep `n`. -/
def makeRequestWithRetry (cfg : RetryConfig) (transport : Nat → Attempt α)
    (jitter : Nat → Nat) (retryCount : Nat) : RetryRun α :=
  match makeRequest cfg.timeoutMs (transport retryCount) with
  | .ok v => ⟨.ok v, 1, []⟩
  | .error e =>
    if h : retryCount < cfg.maxRetries ∧ shouldRetry e = true then
      let rest := makeRequestWithRetry cfg transport jitter (retryCount + 1)
      ⟨rest.result, rest.attempts + 1,
        calculateBackoff cfg (jitter retryCount) retryCount :: rest.sleeps⟩
    else
      ⟨.error e, 1, []⟩
termination_by cfg.maxRetries - retryCount
decreasing_by
  omega

/-! Input sanitization (src `sanitizeInput`, `sanitizeRequest`). -/

/-- The character class of the source's regex `/[\x00-\x1F\x7F]/`. -/
def isControlChar (c : Char) : Bool :=
  c.toNat ≤ 0x1F || c.toNat == 0x7F

/-- The JavaScript `String.prototype.trim` whitespace set (WhiteSpace
plus LineTerminator code points). -/
def isJsWhitespace (c : Char) : Bool :=
  c.toNat == 0x9 || c.toNat == 0xA || c.toNat == 0xB || c.toNat == 0xC ||
  c.toNat == 0xD || c.toNat == 0x20 || c.toNat == 0xA0 || c.toNat == 0x1680 ||
  (0x2000 ≤ c.toNat && c.toNat ≤ 0x200A) || c.toNat == 0x2028 ||
  c.toNat == 0x2029 || c.toNat == 0x202F || c.toNat == 0x205F ||
  c.toNat == 0x3000 || c.toNat == 0xFEFF

/-- Embeds `trim`: drop leading and trailing whitespace. -/
def jsTrim (s : List Char) : List Char :=
  ((s.dropWhile isJsWhitespace).reverse.dropWhile isJsWhitespace).reverse

/-- Embeds `sanitizeInput`: remove control characters, then trim. -/
def sanitizeInput (s : List Char) : List Char :=
  jsTrim (s.filter (fun c => !isControlChar c))

structure Message where
  role : List Char
  content : List Char
  deriving DecidableEq, Repr

structure ChatCompletionRequest where
  model : List Char
  messages : List Message
  deriving DecidableEq, Repr

/-- Embeds `sanitizeRequest`: sanitize every message's content, keep the rest. -/
def sanitizeRequest (request : ChatCompletionRequest) : ChatCompletionRequest :=
  { request with
    messages := request.messages.map (fun msg => { msg with content := sanitizeInput msg.content }) }

/-! Circuit breaker.

Modelled from the spec: the shipped sources only declare the
`CircuitBreakerOpenError` class (`errors.ts`) and reference a
`circuitBreaker` field and `applyCircuitBreaker()` in the service
documentation; the implementation itself is absent.  The model follows
the spec's CircuitState data model and transition rules: starts Closed;
5 consecutive failures open it; while Open every call fails immediately
with Unavailable and no network call is made; after a 60 s cooldown a
single HalfOpen probe is allowed, whose success closes the circuit and
whose failure reopens it. -/

inductive CircuitPhase where
  | closed
  | opened
  | halfOpen
  deriving DecidableEq, Repr

structure CircuitState where
  phase : CircuitPhase
  consecutiveFailures : Nat
  openedAt : Int
  deriving DecidableEq, Repr

/-- Modelled from the spec: per-gateway circuit state starts Closed with
no recorded failures. -/
def circuitInit : CircuitState :=
  { phase := .closed, consecutiveFailures := 0, openedAt := 0 }

/-- Modelled from the spec: circuit opens after this many consecutive
failures (default threshold 5). -/
def failureThreshold : Nat := 5

/-- Modelled from the spec: cooldown before an Open circuit admits a
HalfOpen probe (default 60 s, in milliseconds). -/
def cooldownMs : Int := 60000

/-- Modelled from the spec: gate evaluated before a network call.
`none` means the call is rejected (circuit Open within cooldown);
`some cb'` means the call proceeds with `cb'` the state during the call
(an Open circuit past its cooldown moves to HalfOpen for the probe). -/
def circuitGate (cb : CircuitState) (now : Int) : Option CircuitState :=
  match cb.phase with
  | .opened =>
    if now < cb.openedAt + cooldownMs then none
    else some { cb with phase := .halfOpen }
  | _ => some cb

/-- Modelled from the spec: state update after a completed attempt.
Success closes the circuit and resets the failure count; failure in
HalfOpen reopens immediately; failure otherwise increments the count and
opens at the threshold. -/
def circuitRecord (cb : CircuitState) (now : Int) (success : Bool) : CircuitState :=
  if success then
    { phase := .closed, consecutiveFailures := 0, openedAt := cb.openedAt }
  else
    match cb.phase with
    | .halfOpen =>
      { phase := .opened, consecutiveFailures := cb.consecutiveFailures + 1, openedAt := now }
    | _ =>
      let f := cb.consecutiveFailures + 1
      if failureThreshold ≤ f then { phase := .opened, consecutiveFailures := f, openedAt := now }
      else { phase := cb.phase, consecutiveFailures := f, openedAt := cb.openedAt }

/-- Result of one guarded call: the surfaced result, the successor
circuit state, and whether a network call was actually made. -/
structure CircuitCall (α : Type) where
  result : Except ORError α
  state : CircuitState
  networkCalled : Bool
  deriving DecidableEq, Repr

/-- Modelled from the spec: one send/completion call through the
breaker.  `outcome` is what the transport would return were the call
made. -/
def circuitCall (cb : CircuitState) (now : Int) (outcome : Except ORError α) : CircuitCall α :=
  match circuitGate cb now with
  | none => { result := .error .serviceUnavailable, state := cb, networkCalled := false }
  | some during =>
    match outcome with
    | .ok v => { result := .ok v, state := circuitRecord during now true, networkCalled := true }
    | .error e => { result := .error e, state := circuitRecord during now false, networkCalled := true }

/-- Runs a sequence of calls (each an instant paired with the transport
outcome it would see) through the breaker, returning the final state. -/
def circuitRunList (cb : CircuitState) : List (Int × Except ORError α) → CircuitState
  | [] => cb
  | (now, outcome) :: rest => circuitRunList (circuitCall cb now outcome).state rest

/-! Week boundaries (src `reports.service.ts`, `calculateWeekBoundaries`).

A timezone is embedded as the function giving its UTC offset in seconds
at a given instant; `now.toLocaleString('en-US', { timeZone })` reparsed
by `new Date(...)` on a UTC-system host yields the instant
`now + offset` (the local wall clock read as if it were UTC). -/

abbrev Timezone := Int → Int

/-- Embeds JavaScript `Date.prototype.getDay` on a UTC-system host:
0 = Sunday … 6 = Saturday; epoch day 0 (1970-01-01) was a Thursday. -/
def jsGetDay (t : Int) : Int :=
  (t / 86400 + 4) % 7

structure WeekBounds where
  weekStart : Int
  weekEnd : Int
  deriving DecidableEq, Repr

/-- Embeds `calculateWeekBoundaries`: find the localized wall-clock
instant, step back to that week's Monday, and emit
`<monday-date>T00:00:00Z` / `<sunday-date>T23:59:59Z` — the local
calendar dates stamped with `Z`, not shifted by the UTC offset. -/
def calculateWeekBoundaries (tz : Timezone) (now : Int) : WeekBounds :=
  let userDate := now + tz now
  let dayOfWeek := jsGetDay userDate
  let daysToMonday := if dayOfWeek = 0 then 6 else dayOfWeek - 1
  let mondayDay := userDate / 86400 - daysToMonday
  { weekStart := mondayDay * 86400,
    weekEnd := (mondayDay + 6) * 86400 + 86399 }

/-- Follows the spec's words for claim C4 (for comparison with the
source's `calculateWeekBoundaries`): the week start must be the local
Monday midnight expressed as a true UTC instant, i.e. the local Monday
midnight wall-clock value shifted back by the timezone's UTC offset. -/
def specWeekStartUtc (tz : Timezone) (now : Int) : Int :=
  let userDate := now + tz now
  let dayOfWeek := jsGetDay userDate
  let daysToMonday := if dayOfWeek = 0 then 6 else dayOfWeek - 1
  let mondayDay := userDate / 86400 - daysToMonday
  mondayDay * 86400 - tz now

/-! Report orchestrator (src `reports.service.ts`, `ReportsService`).

The Supabase tables touched by `generateReport` are embedded as lists
and per-user lookup functions; row-level security is reflected by the
explicit `userId` filters.  The trace records how often the weekly
report counter query, the LLM content generation and the report insert
ran, so that "before any call reaches X" claims are statements about
counts. -/

abbrev UUID := Nat

inductive GeneratedBy where
  | onDemand
  | scheduled
  deriving DecidableEq, Repr

structure Report where
  id : UUID
  userId : UUID
  generatedBy : GeneratedBy
  createdAt : Int
  deletedAt : Option Int
  categoriesSnapshot : List UUID
  html : List Char
  llmModel : List Char
  systemPromptVersion : List Char
  deriving DecidableEq, Repr

structure Category where
  id : UUID
  active : Bool
  deriving DecidableEq, Repr

structure Note where
  id : UUID
  categoryId : UUID
  createdAt : Int
  deletedAt : Option Int
  deriving DecidableEq, Repr

/-- Row of the `idempotency_keys` table (migration in the repo). -/
structure IdemRecord where
  userId : UUID
  key : List Char
  reportId : UUID
  expiresAt : Int
  deriving DecidableEq, Repr

structure Db where
  reports : List Report
  categories : List Category
  notes : List Note
  idempotencyKeys : List IdemRecord
  activeCategories : UUID → Option (List UUID)
  timezone : UUID → Option Timezone
  nextReportId : UUID

/-- Failure injection for the idempotency store (claim C9): `findFails`
makes the lookup query error / the store unreachable, `recordFails`
makes the insert of the key record fail. -/
structure StoreBehavior where
  findFails : Bool := false
  recordFails : Bool := false
  deriving DecidableEq, Repr

inductive GenError where
  | invalidCategories (invalidIds : List UUID)
  | weeklyLimitExceeded (count limit : Nat) (weekStart weekEnd : Int)
  | dbFailure
  deriving DecidableEq, Repr

/-- Call counts observed by the collaborators during one
`generateReport` run: the weekly report counter query, the LLM content
generation, and the report insert. -/
structure Trace where
  counterCalls : Nat := 0
  llmCalls : Nat := 0
  insertCalls : Nat := 0
  deriving DecidableEq, Repr

/-- Embeds `getReportById`: fetch by id with `deleted_at IS NULL` and
`.single()` (row-level security restricts to the user's rows). -/
def getReportById (db : Db) (userId reportId : UUID) : Option Report :=
  match db.reports.filter (fun r => r.id == reportId && r.userId == userId && r.deletedAt == none) with
  | [r] => some r
  | _ => none

/-- Embeds `checkIdempotencyKey`: query `idempotency_keys` for the
user's key with `expires_at > now` and `.single()`; any error (store
unreachable, zero or multiple rows, cached report missing) is caught
and treated as absent, so generation proceeds. -/
def checkIdempotencyKey (beh : StoreBehavior) (db : Db) (now : Int)
    (userId : UUID) (idempotencyKey : List Char) : Option Report :=
  if beh.findFails then none
  else
    match db.idempotencyKeys.filter
        (fun entry => entry.userId == userId && entry.key == idempotencyKey
          && decide (now < entry.expiresAt)) with
    | [entry] => getReportById db userId entry.reportId
    | _ => none

/-- Embeds the categories query of `validateCategories`:
`.in('id', categoryIds).eq('active', true)`. -/
def existingActiveCategories (db : Db) (categoryIds : List UUID) : List Category :=
  db.categories.filter (fun c => categoryIds.contains c.id && c.active)

/-- Embeds `notFoundIds` of `validateCategories`: requested ids that are
not among the existing active categories. -/
def notFoundCategoryIds (db : Db) (categoryIds : List UUID) : List UUID :=
  let foundIds := (existingActiveCategories db categoryIds).map (·.id)
  categoryIds.filter (fun i => !foundIds.contains i)

/-- Embeds `unauthorizedIds` of `validateCategories`: requested ids not
in the user's `preferences.active_categories`. -/
def unauthorizedCategoryIds (activeCategories categoryIds : List UUID) : List UUID :=
  categoryIds.filter (fun i => !activeCategories.contains i)

/-- Embeds `validateCategories`: nonexistent or inactive ids raise
`InvalidCategories` first; then the user's preferences are fetched
(`.single()`, a missing row is a database failure) and ids outside the
authorized active categories raise `InvalidCategories`. -/
def validateCategories (db : Db) (userId : UUID) (categoryIds : List UUID) :
    Except GenError (List Category) :=
  if notFoundCategoryIds db categoryIds = [] then
    match db.activeCategories userId with
    | none => .error .dbFailure
    | some active =>
      if unauthorizedCategoryIds active categoryIds = [] then
        .ok (existingActiveCategories db categoryIds)
      else .error (.invalidCategories (unauthorizedCategoryIds active categoryIds))
  else .error (.invalidCategories (notFoundCategoryIds db categoryIds))

/-- Embeds the count query of `checkWeeklyLimit`: on-demand reports of
the user created within the bounds, soft-deleted rows included. -/
def weeklyOnDemandCount (db : Db) (userId : UUID) (b : WeekBounds) : Nat :=
  (db.reports.filter (fun r => r.userId == userId && r.generatedBy == GeneratedBy.onDemand
    && decide (b.weekStart ≤ r.createdAt) && decide (r.createdAt ≤ b.weekEnd))).length

/-- Embeds `checkWeeklyLimit`: fetch the profile timezone (`.single()`),
compute the week bounds, count this week's on-demand reports, and raise
`WeeklyLimitExceeded` when the count reaches 3.  The second component is
the trace contribution: the counter query runs iff the profile fetch
succeeded. -/
def checkWeeklyLimit (db : Db) (now : Int) (userId : UUID) :
    Except GenError WeekBounds × Trace :=
  match db.timezone userId with
  | none => (.error .dbFailure, {})
  | some tz =>
    let b := calculateWeekBoundaries tz now
    let reportCount := weeklyOnDemandCount db userId b
    if 3 ≤ reportCount then
      (.error (.weeklyLimitExceeded reportCount 3 b.weekStart b.weekEnd), { counterCalls := 1 })
    else
      (.ok b, { counterCalls := 1 })

/-- Embeds `fetchNotesForReport`: non-deleted notes of the requested
categories, newest first (the list is kept in query order), capped at
100. -/
def fetchNotesForReport (db : Db) (categoryIds : List UUID) : List Note :=
  (db.notes.filter (fun n => categoryIds.contains n.categoryId && n.deletedAt == none)).take 100

/-- Content produced by `generateReportContent`. -/
structure ReportContent where
  html : List Char
  llmModel : List Char
  systemPromptVersion : List Char
  deriving DecidableEq, Repr

/-- Embeds `generateReportContent`: the source's LLM call is a
placeholder returning fixed content (its invocation is what claims about
"no LLM call" count). -/
def generateReportContent (_notes : List Note) (_categories : List Category) : ReportContent :=
  { html := String.toList "<html><body><h1>Weekly Report</h1><p>Report content generated.</p></body></html>",
    llmModel := String.toList "gpt-4",
    systemPromptVersion := String.toList "v1.0" }

/-- Embeds `insertReport`: append a fresh on-demand report row with the
generated content and the snapshot of the validated categories. -/
def insertReport (db : Db) (now : Int) (userId : UUID) (content : ReportContent)
    (categories : List Category) : Report × Db :=
  let report : Report :=
    { id := db.nextReportId, userId := userId, generatedBy := .onDemand,
      createdAt := now, deletedAt := none, categoriesSnapshot := categories.map (·.id),
      html := content.html, llmModel := content.llmModel,
      systemPromptVersion := content.systemPromptVersion }
  (report, { db with reports := db.reports ++ [report], nextReportId := db.nextReportId + 1 })

/-- Expiry horizon of a stored idempotency key: 24 hours, in seconds. -/
def idempotencyTtl : Int := 24 * 3600

/-- Embeds `storeIdempotencyKey`: insert the key record with a 24-hour
expiry; any failure is logged and swallowed, leaving the store
untouched. -/
def storeIdempotencyKey (beh : StoreBehavior) (db : Db) (now : Int)
    (userId : UUID) (idempotencyKey : List Char) (reportId : UUID) : Db :=
  if beh.recordFails then db
  else
    { db with idempotencyKeys := db.idempotencyKeys ++
        [{ userId := userId, key := idempotencyKey, reportId := reportId,
           expiresAt := now + idempotencyTtl }] }

/-- Observable outcome of one `generateReport` call. -/
structure GenOutcome where
  result : Except GenError Report
  db : Db
  trace : Trace

/-- Embeds `generateReport`: idempotency lookup (returning the cached
report on a hit), category validation, weekly-limit check, note fetch,
LLM generation (a placeholder in the source — its invocation is what
the trace counts), report insert, then best-effort key storage. -/
def generateReport (beh : StoreBehavior) (db : Db) (now : Int) (userId : UUID)
    (includeCategories : List UUID) (idempotencyKey : Option (List Char)) : GenOutcome :=
  let cached := match idempotencyKey with
    | some k => checkIdempotencyKey beh db now userId k
    | none => none
  match cached with
  | some report => { result := .ok report, db := db, trace := {} }
  | none =>
    match validateCategories db userId includeCategories with
    | .error e => { result := .error e, db := db, trace := {} }
    | .ok validatedCategories =>
      match checkWeeklyLimit db now userId with
      | (.error e, t) => { result := .error e, db := db, trace := t }
      | (.ok _bounds, t) =>
        let notes := fetchNotesForReport db includeCategories
        let generatedContent := generateReportContent notes validatedCategories
        let inserted := insertReport db now userId generatedContent validatedCategories
        let db2 := match idempotencyKey with
          | some k => storeIdempotencyKey beh inserted.2 now userId k inserted.1.id
          | none => inserted.2
        { result := .ok inserted.1, db := db2,
          trace := { t with llmCalls := t.llmCalls + 1, insertCalls := t.insertCalls + 1 } }

/-! Concrete transport stubs and fixtures used by the witnesses. -/

/-- Transport stub that fails twice with HTTP 503 and then succeeds. -/
def stub503ThenSuccess (v : Nat) : Nat → Attempt Nat :=
  fun n => if n < 2 then .httpFailure 503 (String.toList "Service Unavailable") else .success v

/-- Transport stub that always returns HTTP 401. -/
def stub401 : Nat → Attempt Nat :=
  fun _ => .httpFailure 401 (String.toList "Unauthorized")

/-- Europe/Warsaw in winter: constant UTC offset +01:00. -/
def warsawWinterOffset : Timezone := fun _ => 3600

/-- Fixture request for the sanitization witness. -/
def reqFixture : ChatCompletionRequest :=
  { model := String.toList "gpt-4",
    messages := [{ role := String.toList "user", content := String.toList "hi" }] }

/-- The fixture's message after sanitization. -/
def sanMsgFixture : Message :=
  { role := String.toList "user", content := String.toList "hi" }

/-- Request carrying a 10 001-character message, for the truncation
counterexample. -/
def oversizedRequest : ChatCompletionRequest :=
  { model := String.toList "gpt-4",
    messages := [{ role := String.toList "user", content := List.replicate 10001 'a' }] }

/-- Content produced for a run on the given database and categories. -/
def contentOf (db : Db) (cats : List UUID) (vcats : List Category) : ReportContent :=
  generateReportContent (fetchNotesForReport db cats) vcats

/-- The report row a successful run inserts. -/
def reportOf (db : Db) (now : Int) (u : UUID) (cats : List UUID) (vcats : List Category) :
    Report :=
  (insertReport db now u (contentOf db cats vcats) vcats).1

/-- The database after the insert of a successful run. -/
def dbAfterInsert (db : Db) (now : Int) (u : UUID) (cats : List UUID) (vcats : List Category) :
    Db :=
  (insertReport db now u (contentOf db cats vcats) vcats).2

/-- The idempotency record written for a stored key. -/
def newIdemRecord (u : UUID) (k : List Char) (rid : UUID) (now : Int) : IdemRecord :=
  { userId := u, key := k, reportId := rid, expiresAt := now + idempotencyTtl }

/-- Fixture database: one active category (id 1) authorized for user 7,
whose profile timezone is Europe/Warsaw in winter. -/
def dbFixture : Db :=
  { reports := [], categories := [{ id := 1, active := true }], notes := [],
    idempotencyKeys := [],
    activeCategories := fun uid => if uid = 7 then some [1] else none,
    timezone := fun uid => if uid = 7 then some (fun _ => 3600) else none,
    nextReportId := 100 }

/-- Fixture on-demand report row of user 7 created mid-week
(2025-01-06T21:46:40Z). -/
def reportFixture (i : UUID) (del : Option Int) : Report :=
  { id := i, userId := 7, generatedBy := .onDemand, createdAt := 1736200000,
    deletedAt := del, categoriesSnapshot := [1], html := [], llmModel := [],
    systemPromptVersion := [] }

/-- Fixture database with three on-demand reports this week (one of them
soft-deleted). -/
def dbQuotaFixture : Db :=
  { dbFixture with
    reports := [reportFixture 1 none, reportFixture 2 none,
      reportFixture 3 (some 1736200500)] }

/-! Helper lemmas. -/

theorem makeRequestWithRetry_attempts_le (cfg : RetryConfig) (transport : Nat → Attempt α)
    (jitter : Nat → Nat) :
    ∀ fuel retryCount, cfg.maxRetries - retryCount ≤ fuel →
      (makeRequestWithRetry cfg transport jitter retryCount).attempts ≤ fuel + 1 := by
  intro fuel
  induction fuel with
  | zero =>
    intro rc hrc
    rw [makeRequestWithRetry]
    split
    · simp
    · split
      · omega
      · simp
  | succ n ih =>
    intro rc hrc
    rw [makeRequestWithRetry]
    split
    · simp
    · split
      · have := ih (rc + 1) (by omega)
        simpa using this
      · simp

theorem makeRequestWithRetry_retry (cfg : RetryConfig) (transport : Nat → Attempt α)
    (jitter : Nat → Nat) (rc : Nat) (e : ORError)
    (h : makeRequest cfg.timeoutMs (transport rc) = .error e)
    (hrc : rc < cfg.maxRetries) (hre : shouldRetry e = true) :
    makeRequestWithRetry cfg transport jitter rc =
      ⟨(makeRequestWithRetry cfg transport jitter (rc + 1)).result,
       (makeRequestWithRetry cfg transport jitter (rc + 1)).attempts + 1,
       calculateBackoff cfg (jitter rc) rc ::
         (makeRequestWithRetry cfg transport jitter (rc + 1)).sleeps⟩ := by
  rw [makeRequestWithRetry, h]
  simp [hrc, hre]

theorem makeRequestWithRetry_success (cfg : RetryConfig) (transport : Nat → Attempt α)
    (jitter : Nat → Nat) (rc : Nat) (v : α)
    (h : makeRequest cfg.timeoutMs (transport rc) = .ok v) :
    makeRequestWithRetry cfg transport jitter rc = ⟨.ok v, 1, []⟩ := by
  rw [makeRequestWithRetry, h]

theorem makeRequestWithRetry_stop (cfg : RetryConfig) (transport : Nat → Attempt α)
    (jitter : Nat → Nat) (rc : Nat) (e : ORError)
    (h : makeRequest cfg.timeoutMs (transport rc) = .error e)
    (hstop : ¬(rc < cfg.maxRetries ∧ shouldRetry e = true)) :
    makeRequestWithRetry cfg transport jitter rc = ⟨.error e, 1, []⟩ := by
  rw [makeRequestWithRetry, h]
  simp only [dif_neg hstop]

theorem jsTrim_sublist (l : List Char) : (jsTrim l).Sublist l := by
  unfold jsTrim
  have h1 : (l.dropWhile isJsWhitespace).Sublist l := List.dropWhile_sublist _
  have h2 : ((l.dropWhile isJsWhitespace).reverse.dropWhile isJsWhitespace).Sublist
      (l.dropWhile isJsWhitespace).reverse := List.dropWhile_sublist _
  have h3 := h2.reverse
  rw [List.reverse_reverse] at h3
  exact h3.trans h1

theorem sanitizeInput_sublist_filter (s : List Char) :
    (sanitizeInput s).Sublist (s.filter (fun c => !isControlChar c)) := by
  unfold sanitizeInput
  exact jsTrim_sublist _

theorem sanitizeInput_sublist (s : List Char) : (sanitizeInput s).Sublist s :=
  (sanitizeInput_sublist_filter s).trans (List.filter_sublist s)

theorem sanitizeInput_no_control (s : List Char) (c : Char) (hc : c ∈ sanitizeInput s) :
    isControlChar c = false := by
  have hmem := (sanitizeInput_sublist_filter s).subset hc
  have := List.of_mem_filter hmem
  simpa using this

theorem sanitizeInput_replicate_a (n : Nat) :
    sanitizeInput (List.replicate n 'a') = List.replicate n 'a' := by
  have hfilter : (List.replicate n 'a').filter (fun c => !isControlChar c) = List.replicate n 'a' := by
    apply List.filter_eq_self.mpr
    intro a ha
    have : a = 'a' := List.eq_of_mem_replicate ha
    subst this
    decide
  have hdrop : ∀ m : Nat, (List.replicate m 'a').dropWhile isJsWhitespace = List.replicate m 'a' := by
    intro m
    cases m with
    | zero => simp
    | succ k =>
      rw [List.replicate_succ, List.dropWhile_cons, if_neg (by decide)]
  unfold sanitizeInput jsTrim
  rw [hfilter, hdrop, List.reverse_replicate, hdrop, List.reverse_replicate]

/-! Claim C5: error classification. -/

/-- Claim C5 (corrected claim, counterexample): an unclassified failure
(a transport rejection whose message matches no substring of the
mapping) does not default to `Unavailable`: `makeRequest` surfaces the
original error unchanged, which is not `serviceUnavailable` (it is
non-retryable, as the claim says). -/
theorem claim_C5_counterexample :
    makeRequest 30000 (Attempt.transportFailure (α := Unit)
        (String.toList "network connection refused"))
      = .error (.generic (String.toList "network connection refused")) ∧
    ORError.generic (String.toList "network connection refused") ≠ .serviceUnavailable ∧
    shouldRetry (.generic (String.toList "network connection refused")) = false := by
  decide

/-- Claim C5 (amended): with the default 30 s timeout, HTTP 401 maps to
AuthInvalid (not retryable), 402 to QuotaExceeded (not retryable), 404
to ModelNotFound (not retryable), 429 to RateLimited (retryable), every
5xx status to Unavailable (retryable), and a local timeout to Timeout
(retryable); an unknown/unclassified failure is surfaced unchanged as
the original error (not mapped to Unavailable) and is not retried. -/
theorem claim_C5 (d : Nat) (hd : d < 100) (msg : List Char)
    (hunknown : classifyMessage 30000 msg = none) :
    (makeRequest 30000 (Attempt.httpFailure (α := Unit) 401 (String.toList "Unauthorized"))
       = .error .apiKeyInvalid ∧ shouldRetry .apiKeyInvalid = false) ∧
    (makeRequest 30000 (Attempt.httpFailure (α := Unit) 402 (String.toList "Payment Required"))
       = .error .quotaExceeded ∧ shouldRetry .quotaExceeded = false) ∧
    (makeRequest 30000 (Attempt.httpFailure (α := Unit) 404 (String.toList "Not Found"))
       = .error .modelNotFound ∧ shouldRetry .modelNotFound = false) ∧
    (makeRequest 30000 (Attempt.httpFailure (α := Unit) 429 (String.toList "Too Many Requests"))
       = .error .rateLimit ∧ shouldRetry .rateLimit = true) ∧
    (makeRequest 30000 (Attempt.httpFailure (α := Unit) (500 + d) (String.toList "Server Error"))
       = .error .serviceUnavailable ∧ shouldRetry .serviceUnavailable = true) ∧
    (makeRequest 30000 (Attempt.timedOut (α := Unit)) = .error (.apiTimeout 30000) ∧
       shouldRetry (.apiTimeout 30000) = true) ∧
    (makeRequest 30000 (Attempt.transportFailure (α := Unit) msg) = .error (.generic msg) ∧
       shouldRetry (.generic msg) = false) := by
  have h5xx : ∀ d < 100,
      makeRequest 30000 (Attempt.httpFailure (α := Unit) (500 + d) (String.toList "Server Error"))
        = .error .serviceUnavailable := by decide
  refine ⟨by decide, by decide, by decide, by decide, ⟨h5xx d hd, by decide⟩, by decide, ?_, rfl⟩
  simp [makeRequest, surfacedError, hunknown]

/-- Witness for claim C5 at `d = 3` (HTTP 503) and the message
`"network connection refused"`. -/
theorem claim_C5_witness :
    makeRequest 30000 (Attempt.httpFailure (α := Unit) 503 (String.toList "Server Error"))
      = .error .serviceUnavailable ∧
    makeRequest 30000 (Attempt.transportFailure (α := Unit)
        (String.toList "network connection refused"))
      = .error (.generic (String.toList "network connection refused")) := by
  have h := claim_C5 3 (by decide) (String.toList "network connection refused") (by decide)
  exact ⟨h.2.2.2.2.1.1, h.2.2.2.2.2.2.1⟩

/-! Claim C6: retry with capped exponential backoff. -/

/-- Claim C6: the backoff is `min(base * 2^attempt + jitter, 32000)` with
base defaulting to 1000 ms and at most `maxRetries` (default 3)
additional attempts; a transport failing twice with HTTP 503 then
succeeding yields success after exactly 3 total attempts with the two
backoff sleeps taken, and an HTTP 401 transport yields exactly 1 attempt
surfacing AuthInvalid. -/
theorem claim_C6 (jitter : Nat → Nat) (v : Nat) :
    (∀ (cfg : RetryConfig) (j k : Nat),
        calculateBackoff cfg j k = min (cfg.retryDelayMs * 2 ^ k + j) 32000) ∧
    ({} : RetryConfig).maxRetries = 3 ∧ ({} : RetryConfig).retryDelayMs = 1000 ∧
    makeRequestWithRetry {} (stub503ThenSuccess v) jitter 0
      = ⟨.ok v, 3, [calculateBackoff {} (jitter 0) 0, calculateBackoff {} (jitter 1) 1]⟩ ∧
    makeRequestWithRetry {} stub401 jitter 0 = ⟨.error .apiKeyInvalid, 1, []⟩ ∧
    ∀ (cfg : RetryConfig) (transport : Nat → Attempt Nat) (j : Nat → Nat),
      (makeRequestWithRetry cfg transport j 0).attempts ≤ cfg.maxRetries + 1 := by
  refine ⟨fun _ _ _ => rfl, rfl, rfl, ?_, ?_, ?_⟩
  · have h0 : makeRequest ({} : RetryConfig).timeoutMs (stub503ThenSuccess v 0)
        = .error .serviceUnavailable := by
      show makeRequest 30000 (Attempt.httpFailure 503 (String.toList "Service Unavailable")) = _
      decide
    have h1 : makeRequest ({} : RetryConfig).timeoutMs (stub503ThenSuccess v 1)
        = .error .serviceUnavailable := by
      show makeRequest 30000 (Attempt.httpFailure 503 (String.toList "Service Unavailable")) = _
      decide
    have h2 : makeRequest ({} : RetryConfig).timeoutMs (stub503ThenSuccess v 2) = .ok v := by
      show makeRequest 30000 (Attempt.success v) = _
      rfl
    rw [makeRequestWithRetry_retry _ _ _ _ _ h0 (by decide) (by decide),
        makeRequestWithRetry_retry _ _ _ _ _ h1 (by decide) (by decide),
        makeRequestWithRetry_success _ _ _ _ _ h2]
  · have h0 : makeRequest ({} : RetryConfig).timeoutMs (stub401 0) = .error .apiKeyInvalid := by
      show makeRequest 30000 (Attempt.httpFailure 401 (String.toList "Unauthorized")) = _
      decide
    rw [makeRequestWithRetry_stop _ _ _ _ _ h0 (by decide)]
  · intro cfg transport j
    have := makeRequestWithRetry_attempts_le cfg transport j cfg.maxRetries 0 (by omega)
    omega

/-- Witness for claim C6 with jitter drawn as the attempt index and a
concrete success value. -/
theorem claim_C6_witness :
    makeRequestWithRetry {} (stub503ThenSuccess 42) (fun n => n) 0 = ⟨.ok 42, 3, [1000, 2001]⟩ ∧
    makeRequestWithRetry {} stub401 (fun n => n) 0 = ⟨.error .apiKeyInvalid, 1, []⟩ := by
  have h := claim_C6 (fun n => n) 42
  refine ⟨?_, h.2.2.2.2.1⟩
  have h4 := h.2.2.2.1
  simpa [calculateBackoff] using h4

/-! Claim C8: input sanitization. -/

/-- Claim C8 (corrected claim, counterexample): a message whose content
is 10 001 copies of `'a'` is sent to the transport unchanged — no
truncation to 10 000 characters happens. -/
theorem claim_C8_counterexample :
    (sanitizeRequest oversizedRequest).messages = oversizedRequest.messages ∧
    oversizedRequest.messages.map (fun msg => msg.content.length) = [10001] := by
  have h : sanitizeInput (List.replicate 10001 'a') = List.replicate 10001 'a' :=
    sanitizeInput_replicate_a 10001
  constructor
  · simp only [sanitizeRequest, oversizedRequest, List.map_cons, List.map_nil, h]
  · simp only [oversizedRequest, List.map_cons, List.map_nil, List.length_replicate]

/-- Claim C8 (amended): each message's content sent to the transport is
the original content with all control characters (U+0000–U+001F and
U+007F) removed and leading/trailing whitespace trimmed; no length
truncation is applied. -/
theorem claim_C8 (request : ChatCompletionRequest) (msg : Message)
    (hmsg : msg ∈ (sanitizeRequest request).messages) :
    (∀ c ∈ msg.content, isControlChar c = false) ∧
    (∃ orig ∈ request.messages,
        msg.content = jsTrim (orig.content.filter (fun c => !isControlChar c)) ∧
        msg.content.Sublist orig.content) := by
  simp only [sanitizeRequest, List.mem_map] at hmsg
  obtain ⟨orig, horig, heq⟩ := hmsg
  subst heq
  refine ⟨fun c hc => sanitizeInput_no_control _ c hc, orig, horig, rfl, sanitizeInput_sublist _⟩

/-- Witness for claim C8 on the fixture request. -/
theorem claim_C8_witness :
    sanMsgFixture ∈ (sanitizeRequest reqFixture).messages ∧
    ((∀ c ∈ sanMsgFixture.content, isControlChar c = false) ∧
     (∃ orig ∈ reqFixture.messages,
        sanMsgFixture.content = jsTrim (orig.content.filter (fun c => !isControlChar c)) ∧
        sanMsgFixture.content.Sublist orig.content)) :=
  ⟨by decide, claim_C8 reqFixture sanMsgFixture (by decide)⟩

/-! Claim C3: circuit breaker (spec-modelled). -/

/-- Claim C3: from a fresh circuit, 5 consecutive transport failures
open the circuit; while Open within the cooldown every call fails
immediately with Unavailable, the state is untouched and no network
call is made; once the cooldown has elapsed a single HalfOpen probe is
admitted, whose success closes the circuit (resetting the failure
count) and whose failure reopens it at the probe time. -/
theorem claim_C3 (cb : CircuitState) (now probeTime t0 : Int) (e : ORError) (v : Nat)
    (outcome : Except ORError Nat)
    (hopen : cb.phase = .opened) (hcool : now < cb.openedAt + cooldownMs)
    (hcooldownOver : cb.openedAt + cooldownMs ≤ probeTime) :
    (circuitRunList circuitInit
        (List.replicate 5 (t0, (.error e : Except ORError Nat)))).phase = .opened ∧
    (circuitRunList circuitInit
        (List.replicate 5 (t0, (.error e : Except ORError Nat)))).openedAt = t0 ∧
    circuitCall cb now outcome = ⟨.error .serviceUnavailable, cb, false⟩ ∧
    circuitGate cb probeTime = some { cb with phase := .halfOpen } ∧
    (circuitCall cb probeTime (.ok v)).networkCalled = true ∧
    (circuitCall cb probeTime (.ok v)).state.phase = .closed ∧
    (circuitCall cb probeTime (.ok v)).state.consecutiveFailures = 0 ∧
    (circuitCall cb probeTime (.error e : Except ORError Nat)).networkCalled = true ∧
    (circuitCall cb probeTime (.error e : Except ORError Nat)).state.phase = .opened ∧
    (circuitCall cb probeTime (.error e : Except ORError Nat)).state.openedAt = probeTime := by
  obtain ⟨ph, cf, oa⟩ := cb
  simp only at hopen
  subst hopen
  simp only at hcool hcooldownOver
  have hn : ¬ (probeTime < oa + cooldownMs) := by omega
  refine ⟨?_, ?_, ?_, ?_, ?_, ?_, ?_, ?_, ?_, ?_⟩
  · simp [circuitRunList, circuitCall, circuitGate, circuitRecord, circuitInit,
      failureThreshold, List.replicate]
  · simp [circuitRunList, circuitCall, circuitGate, circuitRecord, circuitInit,
      failureThreshold, List.replicate]
  · simp [circuitCall, circuitGate, hcool]
  all_goals simp [circuitCall, circuitGate, circuitRecord, hn]

/-- Witness for claim C3: circuit opened at 1000 ms, rejected call at
1500 ms, probe at 61 000 ms. -/
theorem claim_C3_witness :
    (CircuitState.phase { phase := .opened, consecutiveFailures := 5, openedAt := 1000 }
        = .opened) ∧
    ((1500 : Int) < 1000 + cooldownMs) ∧ ((1000 : Int) + cooldownMs ≤ 61000) ∧
    circuitCall { phase := .opened, consecutiveFailures := 5, openedAt := 1000 } 1500
        (.ok (0 : Nat))
      = ⟨.error .serviceUnavailable,
         { phase := .opened, consecutiveFailures := 5, openedAt := 1000 }, false⟩ ∧
    (circuitCall { phase := .opened, consecutiveFailures := 5, openedAt := 1000 } 61000
        (.ok (0 : Nat))).state.phase = .closed :=
  ⟨by decide, by decide, by decide,
   (claim_C3 { phase := .opened, consecutiveFailures := 5, openedAt := 1000 }
      1500 61000 0 .serviceUnavailable 0 (.ok 0) rfl (by decide) (by decide)).2.2.1,
   (claim_C3 { phase := .opened, consecutiveFailures := 5, openedAt := 1000 }
      1500 61000 0 .serviceUnavailable 0 (.ok 0) rfl (by decide) (by decide)).2.2.2.2.2.1⟩

/-! Claim C4: week boundary computation. -/

/-- Claim C4 (corrected claim, counterexample): for Europe/Warsaw
(offset +01:00, winter) at the Wednesday instant 2025-01-08T12:00:00Z,
the source returns Monday 2025-01-06T00:00:00Z, not the local Monday
midnight shifted by the offset (2025-01-05T23:00:00Z): the bounds are
not adjusted by the timezone's UTC offset. -/
theorem claim_C4_counterexample :
    (calculateWeekBoundaries warsawWinterOffset 1736337600).weekStart = 1736121600 ∧
    specWeekStartUtc warsawWinterOffset 1736337600 = 1736118000 ∧
    (calculateWeekBoundaries warsawWinterOffset 1736337600).weekStart ≠
      specWeekStartUtc warsawWinterOffset 1736337600 ∧
    jsGetDay (1736337600 + warsawWinterOffset 1736337600) = 3 := by
  refine ⟨?_, ?_, ?_, ?_⟩ <;> decide

/-- Claim C4 (amended): for every timezone and instant, the computed
week starts at 00:00:00 UTC of a Monday calendar date, ends exactly
6 days 23:59:59 later, and the bracketed week contains the current
calendar date as observed in the given timezone; the instants are the
local week's calendar dates stamped as UTC, not shifted by the
timezone's UTC offset. -/
theorem claim_C4 (tz : Timezone) (now : Int) :
    (calculateWeekBoundaries tz now).weekStart % 86400 = 0 ∧
    jsGetDay (calculateWeekBoundaries tz now).weekStart = 1 ∧
    (calculateWeekBoundaries tz now).weekEnd
      = (calculateWeekBoundaries tz now).weekStart + 7 * 86400 - 1 ∧
    (calculateWeekBoundaries tz now).weekStart / 86400 ≤ (now + tz now) / 86400 ∧
    (now + tz now) / 86400 ≤ (calculateWeekBoundaries tz now).weekStart / 86400 + 6 := by
  simp only [calculateWeekBoundaries, jsGetDay]
  refine ⟨?_, ?_, ?_, ?_, ?_⟩ <;> split_ifs <;> omega

/-! Helper lemmas for the orchestrator claims. -/

theorem idem_filter_nil (db : Db) (u : UUID) (k : List Char) (t : Int)
    (hkey : ∀ en ∈ db.idempotencyKeys, ¬(en.userId = u ∧ en.key = k)) :
    db.idempotencyKeys.filter
      (fun en => en.userId == u && en.key == k && decide (t < en.expiresAt)) = [] := by
  rw [List.filter_eq_nil_iff]
  intro en hen hb
  simp only [Bool.and_eq_true, beq_iff_eq, decide_eq_true_eq] at hb
  exact hkey en hen ⟨hb.1.1, hb.1.2⟩

theorem checkIdempotencyKey_none (db : Db) (now : Int) (u : UUID) (k : List Char)
    (hkey : ∀ en ∈ db.idempotencyKeys, ¬(en.userId = u ∧ en.key = k)) :
    checkIdempotencyKey {} db now u k = none := by
  unfold checkIdempotencyKey
  rw [idem_filter_nil db u k now hkey]
  rfl

theorem generateReport_success_some (db : Db) (now : Int) (u : UUID) (cats : List UUID)
    (k : List Char) (vcats : List Category) (b : WeekBounds) (t : Trace)
    (hckey : checkIdempotencyKey {} db now u k = none)
    (hval : validateCategories db u cats = .ok vcats)
    (hq : checkWeeklyLimit db now u = (.ok b, t)) :
    generateReport {} db now u cats (some k) =
      { result := .ok (reportOf db now u cats vcats),
        db := storeIdempotencyKey {} (dbAfterInsert db now u cats vcats) now u k
          (reportOf db now u cats vcats).id,
        trace := { t with llmCalls := t.llmCalls + 1, insertCalls := t.insertCalls + 1 } } := by
  unfold generateReport
  dsimp only
  rw [hckey, hval, hq]
  rfl

theorem checkWeeklyLimit_snd (db : Db) (now : Int) (u : UUID) :
    (checkWeeklyLimit db now u).2.insertCalls = 0 ∧ (checkWeeklyLimit db now u).2.llmCalls = 0 := by
  unfold checkWeeklyLimit
  cases db.timezone u with
  | none => exact ⟨rfl, rfl⟩
  | some tz =>
    dsimp only
    split <;> exact ⟨rfl, rfl⟩

theorem validateCategories_error_inv (db : Db) (u : UUID) (cats : List UUID) (e : GenError)
    (h : validateCategories db u cats = .error e) :
    (notFoundCategoryIds db cats ≠ [] ∧ e = .invalidCategories (notFoundCategoryIds db cats)) ∨
    (notFoundCategoryIds db cats = [] ∧ db.activeCategories u = none ∧ e = .dbFailure) ∨
    (notFoundCategoryIds db cats = [] ∧ ∃ auth, db.activeCategories u = some auth ∧
       unauthorizedCategoryIds auth cats ≠ [] ∧
       e = .invalidCategories (unauthorizedCategoryIds auth cats)) := by
  unfold validateCategories at h
  by_cases hnf : notFoundCategoryIds db cats = []
  · rw [if_pos hnf] at h
    cases ha : db.activeCategories u with
    | none =>
      rw [ha] at h
      dsimp only at h
      injection h with h'
      exact Or.inr (Or.inl ⟨hnf, rfl, h'.symm⟩)
    | some auth =>
      rw [ha] at h
      dsimp only at h
      by_cases hu : unauthorizedCategoryIds auth cats = []
      · rw [if_pos hu] at h
        exact absurd h (by simp)
      · rw [if_neg hu] at h
        injection h with h'
        exact Or.inr (Or.inr ⟨hnf, auth, rfl, hu, h'.symm⟩)
  · rw [if_neg hnf] at h
    injection h with h'
    exact Or.inl ⟨hnf, h'.symm⟩

theorem checkWeeklyLimit_error_inv (db : Db) (now : Int) (u : UUID) (e : GenError)
    (h : (checkWeeklyLimit db now u).1 = .error e) :
    e = .dbFailure ∨ ∃ cnt ws we, e = .weeklyLimitExceeded cnt 3 ws we := by
  unfold checkWeeklyLimit at h
  cases ha : db.timezone u with
  | none =>
    rw [ha] at h
    dsimp only at h
    injection h with h'
    exact Or.inl h'.symm
  | some tz =>
    rw [ha] at h
    dsimp only at h
    split at h
    · injection h with h'
      exact Or.inr ⟨_, _, _, h'.symm⟩
    · exact absurd h (by simp)

theorem validateCategories_eq_notFound (db : Db) (u : UUID) (cats : List UUID)
    (h : notFoundCategoryIds db cats ≠ []) :
    validateCategories db u cats = .error (.invalidCategories (notFoundCategoryIds db cats)) := by
  unfold validateCategories
  rw [if_neg h]

theorem validateCategories_eq_unauthorized (db : Db) (u : UUID) (cats auth : List UUID)
    (hnf : notFoundCategoryIds db cats = []) (ha : db.activeCategories u = some auth)
    (hu : unauthorizedCategoryIds auth cats ≠ []) :
    validateCategories db u cats
      = .error (.invalidCategories (unauthorizedCategoryIds auth cats)) := by
  unfold validateCategories
  rw [if_pos hnf, ha]
  dsimp only
  rw [if_neg hu]

theorem generateReport_validate_error (beh : StoreBehavior) (db : Db) (now : Int) (u : UUID)
    (cats : List UUID) (e : GenError)
    (h : validateCategories db u cats = .error e) :
    generateReport beh db now u cats none = ⟨.error e, db, {}⟩ := by
  unfold generateReport
  dsimp only
  rw [h]

theorem generateReport_error_inv (beh : StoreBehavior) (db : Db) (now : Int) (u : UUID)
    (cats : List UUID) (idk : Option (List Char)) (e : GenError)
    (h : (generateReport beh db now u cats idk).result = .error e) :
    validateCategories db u cats = .error e ∨
    (∃ vc, validateCategories db u cats = .ok vc ∧ (checkWeeklyLimit db now u).1 = .error e) := by
  unfold generateReport at h
  dsimp only at h
  split at h
  · simp at h
  · split at h
    · rename_i e0 hval
      dsimp only at h
      injection h with h'
      exact Or.inl (h' ▸ hval)
    · rename_i vc hval
      split at h
      · rename_i e0 t hq
        dsimp only at h
        injection h with h'
        refine Or.inr ⟨vc, hval, ?_⟩
        rw [hq, h']
      · dsimp only at h
        simp at h

theorem mem_notFound_of (db : Db) (cats : List UUID) (x : UUID) (hx : x ∈ cats)
    (hbad : ∀ c ∈ db.categories, c.id = x → c.active = false) :
    x ∈ notFoundCategoryIds db cats := by
  unfold notFoundCategoryIds existingActiveCategories
  rw [List.mem_filter]
  refine ⟨hx, ?_⟩
  simp only [Bool.not_eq_true', List.contains, List.elem_eq_mem, decide_eq_false_iff_not,
    List.mem_map, List.mem_filter, Bool.and_eq_true, not_exists, not_and]
  intro c hc hx2
  have hfalse := hbad c hc.1 hx2
  rw [hc.2.2] at hfalse
  exact Bool.noConfusion hfalse

theorem mem_unauthorized_of (auth cats : List UUID) (x : UUID) (hx : x ∈ cats)
    (hnot : x ∉ auth) :
    x ∈ unauthorizedCategoryIds auth cats := by
  unfold unauthorizedCategoryIds
  rw [List.mem_filter]
  refine ⟨hx, ?_⟩
  simp [hnot]

theorem notFound_subset (db : Db) (cats : List UUID) :
    ∀ i ∈ notFoundCategoryIds db cats, i ∈ cats :=
  fun _ hi => (List.mem_filter.1 hi).1

theorem unauthorized_subset (auth cats : List UUID) :
    ∀ i ∈ unauthorizedCategoryIds auth cats, i ∈ cats :=
  fun _ hi => (List.mem_filter.1 hi).1

theorem storeIdempotencyKey_reports (beh : StoreBehavior) (db : Db) (now : Int)
    (u : UUID) (k : List Char) (rid : UUID) :
    (storeIdempotencyKey beh db now u k rid).reports = db.reports := by
  unfold storeIdempotencyKey
  split <;> rfl

theorem generateReport_key_storeFailed (rf : Bool) (db : Db) (now : Int) (u : UUID)
    (cats : List UUID) (k : List Char) :
    (generateReport { findFails := true, recordFails := rf } db now u cats (some k)).result
      = (generateReport { findFails := true, recordFails := rf } db now u cats none).result ∧
    (generateReport { findFails := true, recordFails := rf } db now u cats (some k)).trace
      = (generateReport { findFails := true, recordFails := rf } db now u cats none).trace ∧
    (generateReport { findFails := true, recordFails := rf } db now u cats (some k)).db.reports
      = (generateReport { findFails := true, recordFails := rf } db now u cats none).db.reports := by
  unfold generateReport
  dsimp only
  rw [show checkIdempotencyKey { findFails := true, recordFails := rf } db now u k = none from rfl]
  cases hval : validateCategories db u cats with
  | error e => exact ⟨rfl, rfl, rfl⟩
  | ok vc =>
    rcases hq : checkWeeklyLimit db now u with ⟨res, t⟩
    cases res with
    | error e => exact ⟨rfl, rfl, rfl⟩
    | ok b =>
      refine ⟨rfl, rfl, ?_⟩
      dsimp only
      rw [storeIdempotencyKey_reports]

theorem generateReport_record_ignored (ff : Bool) (db : Db) (now : Int) (u : UUID)
    (cats : List UUID) (idk : Option (List Char)) :
    (generateReport { findFails := ff, recordFails := true } db now u cats idk).result
      = (generateReport { findFails := ff, recordFails := false } db now u cats idk).result ∧
    (generateReport { findFails := ff, recordFails := true } db now u cats idk).trace
      = (generateReport { findFails := ff, recordFails := false } db now u cats idk).trace ∧
    (generateReport { findFails := ff, recordFails := true } db now u cats idk).db.reports
      = (generateReport { findFails := ff, recordFails := false } db now u cats idk).db.reports := by
  unfold generateReport
  cases idk with
  | none =>
    dsimp only
    cases hval : validateCategories db u cats with
    | error e => exact ⟨rfl, rfl, rfl⟩
    | ok vc =>
      rcases hq : checkWeeklyLimit db now u with ⟨res, t⟩
      cases res with
      | error e => exact ⟨rfl, rfl, rfl⟩
      | ok b => exact ⟨rfl, rfl, rfl⟩
  | some k =>
    dsimp only
    rw [show checkIdempotencyKey { findFails := ff, recordFails := true } db now u k
        = checkIdempotencyKey { findFails := ff, recordFails := false } db now u k from rfl]
    cases hck : checkIdempotencyKey { findFails := ff, recordFails := false } db now u k with
    | some r => exact ⟨rfl, rfl, rfl⟩
    | none =>
      cases hval : validateCategories db u cats with
      | error e => exact ⟨rfl, rfl, rfl⟩
      | ok vc =>
        rcases hq : checkWeeklyLimit db now u with ⟨res, t⟩
        cases res with
        | error e => exact ⟨rfl, rfl, rfl⟩
        | ok b =>
          refine ⟨rfl, rfl, ?_⟩
          dsimp only
          rw [storeIdempotencyKey_reports, storeIdempotencyKey_reports]

/-! Claim C1: idempotent generation. -/

/-- Claim C1: for a database in which the key is not yet recorded, the
requested categories validate and the weekly quota passes, a first
`generateReport` call with an idempotency key inserts exactly one report
row, and a second call with the same key within the key's 24-hour TTL
returns the same report without inserting another row, without checking
the weekly quota and without generating content (its trace is empty). -/
theorem claim_C1 (db : Db) (now₁ now₂ : Int) (u : UUID) (cats : List UUID) (k : List Char)
    (vcats : List Category) (b : WeekBounds)
    (hval : validateCategories db u cats = .ok vcats)
    (hquota : (checkWeeklyLimit db now₁ u).1 = .ok b)
    (hkey : ∀ en ∈ db.idempotencyKeys, ¬(en.userId = u ∧ en.key = k))
    (hfresh : ∀ r ∈ db.reports, r.id ≠ db.nextReportId)
    (hlive : now₂ < now₁ + idempotencyTtl) :
    ∃ rep : Report,
      (generateReport {} db now₁ u cats (some k)).result = .ok rep ∧
      (generateReport {} (generateReport {} db now₁ u cats (some k)).db
          now₂ u cats (some k)).result = .ok rep ∧
      (generateReport {} db now₁ u cats (some k)).db.reports = db.reports ++ [rep] ∧
      (generateReport {} (generateReport {} db now₁ u cats (some k)).db
          now₂ u cats (some k)).db.reports = db.reports ++ [rep] ∧
      (generateReport {} db now₁ u cats (some k)).trace.insertCalls = 1 ∧
      (generateReport {} (generateReport {} db now₁ u cats (some k)).db
          now₂ u cats (some k)).trace = {} := by
  rcases hq' : checkWeeklyLimit db now₁ u with ⟨res, t⟩
  rw [hq'] at hquota
  dsimp only at hquota
  subst hquota
  have h1 := generateReport_success_some db now₁ u cats k vcats b t
    (checkIdempotencyKey_none db now₁ u k hkey) hval hq'
  have hrepid : (reportOf db now₁ u cats vcats).id = db.nextReportId := rfl
  have hdb2keys : (storeIdempotencyKey {} (dbAfterInsert db now₁ u cats vcats) now₁ u k
      (reportOf db now₁ u cats vcats).id).idempotencyKeys
      = db.idempotencyKeys ++ [newIdemRecord u k (reportOf db now₁ u cats vcats).id now₁] := rfl
  have hdb2reports : (storeIdempotencyKey {} (dbAfterInsert db now₁ u cats vcats) now₁ u k
      (reportOf db now₁ u cats vcats).id).reports
      = db.reports ++ [reportOf db now₁ u cats vcats] := rfl
  have hck2 : checkIdempotencyKey {} (storeIdempotencyKey {} (dbAfterInsert db now₁ u cats vcats)
      now₁ u k (reportOf db now₁ u cats vcats).id) now₂ u k
      = some (reportOf db now₁ u cats vcats) := by
    have hfilter : (storeIdempotencyKey {} (dbAfterInsert db now₁ u cats vcats) now₁ u k
        (reportOf db now₁ u cats vcats).id).idempotencyKeys.filter
          (fun en => en.userId == u && en.key == k && decide (now₂ < en.expiresAt))
        = [newIdemRecord u k (reportOf db now₁ u cats vcats).id now₁] := by
      rw [hdb2keys, List.filter_append, idem_filter_nil db u k now₂ hkey]
      simp [newIdemRecord, hlive]
    have hold : db.reports.filter (fun r => r.id == (reportOf db now₁ u cats vcats).id
        && r.userId == u && r.deletedAt == none) = [] := by
      rw [List.filter_eq_nil_iff]
      intro r hr hb
      simp only [Bool.and_eq_true, beq_iff_eq] at hb
      exact hfresh r hr (hb.1.1.trans hrepid)
    have hru : (reportOf db now₁ u cats vcats).userId = u := rfl
    have hrd : (reportOf db now₁ u cats vcats).deletedAt = none := rfl
    have hget : getReportById (storeIdempotencyKey {} (dbAfterInsert db now₁ u cats vcats) now₁ u k
        (reportOf db now₁ u cats vcats).id) u (reportOf db now₁ u cats vcats).id
        = some (reportOf db now₁ u cats vcats) := by
      unfold getReportById
      rw [hdb2reports, List.filter_append, hold]
      simp [hru, hrd]
    unfold checkIdempotencyKey
    rw [hfilter]
    exact hget
  have h2 : generateReport {} (storeIdempotencyKey {} (dbAfterInsert db now₁ u cats vcats)
      now₁ u k (reportOf db now₁ u cats vcats).id) now₂ u cats (some k)
      = ⟨.ok (reportOf db now₁ u cats vcats),
         storeIdempotencyKey {} (dbAfterInsert db now₁ u cats vcats) now₁ u k
           (reportOf db now₁ u cats vcats).id, {}⟩ := by
    unfold generateReport
    dsimp only
    rw [hck2]
  refine ⟨reportOf db now₁ u cats vcats, ?_, ?_, ?_, ?_, ?_, ?_⟩
  · rw [h1]
  · rw [h1]
    dsimp only
    rw [h2]
  · rw [h1]
    exact hdb2reports
  · rw [h1]
    dsimp only
    rw [h2]
    exact hdb2reports
  · rw [h1]
    dsimp only
    have ht := (checkWeeklyLimit_snd db now₁ u).1
    rw [hq'] at ht
    dsimp only at ht
    rw [ht]
  · rw [h1]
    dsimp only
    rw [h2]

/-- Witness for claim C1 on the fixture database, second call 10 s after
the first. -/
theorem claim_C1_witness :
    validateCategories dbFixture 7 [1] = .ok [{ id := 1, active := true }] ∧
    (∃ rep : Report,
      (generateReport {} dbFixture 1736337600 7 [1] (some (String.toList "idem-1"))).result
        = .ok rep ∧
      (generateReport {} (generateReport {} dbFixture 1736337600 7 [1]
          (some (String.toList "idem-1"))).db 1736337610 7 [1]
          (some (String.toList "idem-1"))).result = .ok rep ∧
      (generateReport {} dbFixture 1736337600 7 [1]
          (some (String.toList "idem-1"))).db.reports = dbFixture.reports ++ [rep] ∧
      (generateReport {} (generateReport {} dbFixture 1736337600 7 [1]
          (some (String.toList "idem-1"))).db 1736337610 7 [1]
          (some (String.toList "idem-1"))).db.reports = dbFixture.reports ++ [rep] ∧
      (generateReport {} dbFixture 1736337600 7 [1]
          (some (String.toList "idem-1"))).trace.insertCalls = 1 ∧
      (generateReport {} (generateReport {} dbFixture 1736337600 7 [1]
          (some (String.toList "idem-1"))).db 1736337610 7 [1]
          (some (String.toList "idem-1"))).trace = {}) :=
  ⟨by decide,
   claim_C1 dbFixture 1736337600 1736337610 7 [1] (String.toList "idem-1")
     [{ id := 1, active := true }] ⟨1736121600, 1736726399⟩
     (by decide) (by decide) (by decide) (by decide) (by decide)⟩

/-! Claim C2: weekly quota enforcement. -/

/-- Claim C2: when the requested categories validate and the user's
count of on-demand reports (soft-deleted included) created within the
current local week bounds is at least 3, `generateReport` fails with
`WeeklyLimitExceeded` carrying the count, the limit 3 and the week
bounds, and neither the LLM content generation nor the report insert
runs. -/
theorem claim_C2 (beh : StoreBehavior) (db : Db) (now : Int) (u : UUID)
    (cats : List UUID) (vcats : List Category) (tz : Timezone)
    (hval : validateCategories db u cats = .ok vcats)
    (htz : db.timezone u = some tz)
    (hcount : 3 ≤ weeklyOnDemandCount db u (calculateWeekBoundaries tz now)) :
    (generateReport beh db now u cats none).result
      = .error (.weeklyLimitExceeded (weeklyOnDemandCount db u (calculateWeekBoundaries tz now))
          3 (calculateWeekBoundaries tz now).weekStart (calculateWeekBoundaries tz now).weekEnd) ∧
    (generateReport beh db now u cats none).trace.llmCalls = 0 ∧
    (generateReport beh db now u cats none).trace.insertCalls = 0 ∧
    (generateReport beh db now u cats none).db.reports = db.reports := by
  unfold generateReport
  simp only [hval]
  unfold checkWeeklyLimit
  rw [htz]
  simp [hcount]

/-- Witness for claim C2: three on-demand reports already in the current
week (one soft-deleted). -/
theorem claim_C2_witness :
    validateCategories dbQuotaFixture 7 [1] = .ok [{ id := 1, active := true }] ∧
    3 ≤ weeklyOnDemandCount dbQuotaFixture 7
        (calculateWeekBoundaries (fun _ => 3600) 1736337600) ∧
    (generateReport {} dbQuotaFixture 1736337600 7 [1] none).result
      = .error (.weeklyLimitExceeded
          (weeklyOnDemandCount dbQuotaFixture 7 (calculateWeekBoundaries (fun _ => 3600) 1736337600))
          3 (calculateWeekBoundaries (fun _ => 3600) 1736337600).weekStart
          (calculateWeekBoundaries (fun _ => 3600) 1736337600).weekEnd) ∧
    (generateReport {} dbQuotaFixture 1736337600 7 [1] none).trace.llmCalls = 0 ∧
    (generateReport {} dbQuotaFixture 1736337600 7 [1] none).trace.insertCalls = 0 := by
  have h := claim_C2 {} dbQuotaFixture 1736337600 7 [1] [{ id := 1, active := true }]
    (fun _ => 3600) (by decide) rfl (by decide)
  exact ⟨by decide, by decide, h.1, h.2.1, h.2.2.1⟩

/-! Claim C7: category authorization precedes quota. -/

/-- Claim C7: a request containing a category id that does not exist, is
not active, or is outside the user's authorized active categories fails
with `InvalidCategories` carrying a non-empty subset of the requested
ids, with an untouched trace (no report-counter query, no LLM call, no
insert) and an unchanged reports table. -/
theorem claim_C7 (beh : StoreBehavior) (db : Db) (now : Int) (u : UUID)
    (cats : List UUID) (x : UUID) (auth : List UUID)
    (hx : x ∈ cats) (hauth : db.activeCategories u = some auth)
    (hbad : (∀ c ∈ db.categories, c.id = x → c.active = false) ∨ x ∉ auth) :
    ∃ ids, (generateReport beh db now u cats none).result = .error (.invalidCategories ids) ∧
      ids ≠ [] ∧ (∀ i ∈ ids, i ∈ cats) ∧
      (generateReport beh db now u cats none).trace = {} ∧
      (generateReport beh db now u cats none).db.reports = db.reports := by
  by_cases hnf : notFoundCategoryIds db cats = []
  · rcases hbad with hbad1 | hbad2
    · have := mem_notFound_of db cats x hx hbad1
      rw [hnf] at this
      exact absurd this (List.not_mem_nil x)
    · have hu : unauthorizedCategoryIds auth cats ≠ [] := by
        intro h0
        have := mem_unauthorized_of auth cats x hx hbad2
        rw [h0] at this
        exact absurd this (List.not_mem_nil x)
      have hval := validateCategories_eq_unauthorized db u cats auth hnf hauth hu
      have hgen := generateReport_validate_error beh db now u cats _ hval
      exact ⟨unauthorizedCategoryIds auth cats, by rw [hgen], hu,
        unauthorized_subset auth cats, by rw [hgen], by rw [hgen]⟩
  · have hval := validateCategories_eq_notFound db u cats hnf
    have hgen := generateReport_validate_error beh db now u cats _ hval
    exact ⟨notFoundCategoryIds db cats, by rw [hgen], hnf,
      notFound_subset db cats, by rw [hgen], by rw [hgen]⟩

/-- Witness for claim C7: category 2 is requested but not authorized
(and does not exist). -/
theorem claim_C7_witness :
    (2 : UUID) ∈ [1, 2] ∧ dbFixture.activeCategories 7 = some [1] ∧
    (∃ ids, (generateReport {} dbFixture 0 7 [1, 2] none).result
        = .error (.invalidCategories ids) ∧
      ids ≠ [] ∧ (∀ i ∈ ids, i ∈ [1, 2]) ∧
      (generateReport {} dbFixture 0 7 [1, 2] none).trace = {} ∧
      (generateReport {} dbFixture 0 7 [1, 2] none).db.reports = dbFixture.reports) :=
  ⟨by decide, rfl,
   claim_C7 {} dbFixture 0 7 [1, 2] 2 [1] (by decide) rfl (Or.inr (by decide))⟩

/-! Claim C9: idempotency bookkeeping fails open. -/

/-- Claim C9: an erroring/unreachable idempotency-store lookup behaves
as absent, and such a run is indistinguishable (result, trace, reports)
from a run without a key; a failing key-record insert never changes the
result, trace or reports of the call either — store failures never
change the outcome of an otherwise-successful generation. -/
theorem claim_C9 (db : Db) (now : Int) (u : UUID) (cats : List UUID) (k : List Char)
    (idk : Option (List Char)) (ff rf : Bool) :
    checkIdempotencyKey { findFails := true, recordFails := rf } db now u k = none ∧
    ((generateReport { findFails := true, recordFails := rf } db now u cats (some k)).result
       = (generateReport { findFails := true, recordFails := rf } db now u cats none).result ∧
     (generateReport { findFails := true, recordFails := rf } db now u cats (some k)).trace
       = (generateReport { findFails := true, recordFails := rf } db now u cats none).trace ∧
     (generateReport { findFails := true, recordFails := rf } db now u cats (some k)).db.reports
       = (generateReport { findFails := true, recordFails := rf } db now u cats none).db.reports) ∧
    ((generateReport { findFails := ff, recordFails := true } db now u cats idk).result
       = (generateReport { findFails := ff, recordFails := false } db now u cats idk).result ∧
     (generateReport { findFails := ff, recordFails := true } db now u cats idk).trace
       = (generateReport { findFails := ff, recordFails := false } db now u cats idk).trace ∧
     (generateReport { findFails := ff, recordFails := true } db now u cats idk).db.reports
       = (generateReport { findFails := ff, recordFails := false } db now u cats idk).db.reports) :=
  ⟨rfl, generateReport_key_storeFailed rf db now u cats k,
   generateReport_record_ignored ff db now u cats idk⟩

/-! Claim C10: contents of the InvalidCategories payload. -/

/-- Claim C10: whenever `generateReport` raises `InvalidCategories`, the
carried id list is non-empty and a subset of the requested ids; if some
requested id is nonexistent or inactive the list is exactly those ids,
and otherwise it is exactly the unauthorized ids from the user's
preferences. -/
theorem claim_C10 (beh : StoreBehavior) (db : Db) (now : Int) (u : UUID)
    (cats : List UUID) (idk : Option (List Char)) (ids : List UUID)
    (hres : (generateReport beh db now u cats idk).result = .error (.invalidCategories ids)) :
    ids ≠ [] ∧ (∀ i ∈ ids, i ∈ cats) ∧
    (notFoundCategoryIds db cats ≠ [] → ids = notFoundCategoryIds db cats) ∧
    (notFoundCategoryIds db cats = [] →
      ∃ auth, db.activeCategories u = some auth ∧ ids = unauthorizedCategoryIds auth cats) := by
  rcases generateReport_error_inv beh db now u cats idk _ hres with hval | ⟨vc, hval, hq⟩
  · rcases validateCategories_error_inv db u cats _ hval with
      ⟨hnf, he⟩ | ⟨hnf, ha, he⟩ | ⟨hnf, auth, ha, hu, he⟩
    · injection he with h'
      subst h'
      exact ⟨hnf, notFound_subset db cats, fun _ => rfl, fun h0 => absurd h0 hnf⟩
    · exact GenError.noConfusion he
    · injection he with h'
      subst h'
      exact ⟨hu, unauthorized_subset auth cats, fun hnf' => absurd hnf hnf',
        fun _ => ⟨auth, ha, rfl⟩⟩
  · rcases checkWeeklyLimit_error_inv db now u _ hq with he | ⟨cnt, ws, we, he⟩
    · exact GenError.noConfusion he
    · exact GenError.noConfusion he

/-- Witness for claim C10: requesting the nonexistent category 2 raises
`InvalidCategories [2]`. -/
theorem claim_C10_witness :
    (generateReport {} dbFixture 0 7 [2] none).result = .error (.invalidCategories [2]) ∧
    (([2] : List UUID) ≠ [] ∧ (∀ i ∈ ([2] : List UUID), i ∈ ([2] : List UUID)) ∧
     (notFoundCategoryIds dbFixture [2] ≠ [] → ([2] : List UUID) = notFoundCategoryIds dbFixture [2]) ∧
     (notFoundCategoryIds dbFixture [2] = [] →
       ∃ auth, dbFixture.activeCategories 7 = some auth ∧
         ([2] : List UUID) = unauthorizedCategoryIds auth [2])) :=
  ⟨by decide, claim_C10 {} dbFixture 0 7 [2] none [2] (by decide)⟩

/-- Witness for claim C4 at the Warsaw fixture instant. -/
theorem claim_C4_witness :
    (calculateWeekBoundaries warsawWinterOffset 1736337600).weekStart % 86400 = 0 ∧
    jsGetDay (calculateWeekBoundaries warsawWinterOffset 1736337600).weekStart = 1 ∧
    (calculateWeekBoundaries warsawWinterOffset 1736337600).weekEnd
      = (calculateWeekBoundaries warsawWinterOffset 1736337600).weekStart + 7 * 86400 - 1 ∧
    (calculateWeekBoundaries warsawWinterOffset 1736337600).weekStart / 86400
      ≤ (1736337600 + warsawWinterOffset 1736337600) / 86400 ∧
    (1736337600 + warsawWinterOffset 1736337600) / 86400
      ≤ (calculateWeekBoundaries warsawWinterOffset 1736337600).weekStart / 86400 + 6 :=
  claim_C4 warsawWinterOffset 1736337600

end LifeSync
